import Mathlib

/-!
Shallow embedding of `src/rules/trigger-builder.js` (openhab-js fluent
trigger builder).

Conventions of the embedding:

* JavaScript string-or-undefined values are `Option String` (`none` is
  `undefined`).  Template-literal coercion of `undefined` yields the string
  `"undefined"` (`jsToString`); truthiness of a string value is
  non-emptiness (`truthy`, `jsOr`).
* Each configuration class becomes a structure of its mutable fields; a
  method that mutates `this` and returns it becomes a function returning
  the updated structure.  A method that throws becomes `Except String _`.
* JavaScript plain objects used as argument bags are modelled as total
  functions `String → Option String` (`JSObj`); `none` conflates "absent"
  and "value undefined", which is adequate for the properties below.
* The `triggers` module (engine trigger factory) is external to the
  repository; per the spec (§6) its free functions return opaque
  engine-native records, modelled as the constructors of `EngineTrigger`.
* The mutable rule-definition session (the `TriggerBuilder` instance plus
  the owning rule builder's trigger list) is modelled as explicit state
  (`TBState`); the aliasing between the fluent receiver and the builder's
  `currentTigger` slot (the source's own spelling) is rendered by keeping
  the current configuration in the state slot.
-/

/-- JS truthiness of a string-or-undefined value: `undefined` and the empty
string are falsy, every other string is truthy. -/
def truthy : Option String → Bool
  | none => false
  | some s => s ≠ ""

/-- JS template-literal / string-concatenation coercion: `undefined` prints
as `"undefined"`. -/
def jsToString : Option String → String
  | none => "undefined"
  | some s => s

/-- JS `a || b` on strings: the empty string is falsy. -/
def jsOr (a b : String) : String :=
  if a = "" then b else a

/-- Auxiliary contiguous-sublist test on character lists. -/
def strContainsAux (sub : List Char) : List Char → Bool
  | [] => sub.isEmpty
  | c :: cs => sub.isPrefixOf (c :: cs) || strContainsAux sub cs

/-- Substring test used to state the description properties. -/
def strContains (s sub : String) : Bool :=
  strContainsAux sub.toList s.toList

/-- A JS plain object used as an argument bag: keys to string values,
`none` for absent/undefined. -/
def JSObj : Type := String → Option String

/-- Modelled from the spec (§6): the engine trigger factory functions of the
`triggers` module (not under `src/`) each return an opaque engine-native
trigger record; we model each factory as a constructor recording its
arguments in order. -/
inductive EngineTrigger where
  | ChannelEventTrigger (channelName : String) (eventName : Option String)
  | GenericCronTrigger (timeStr : String)
  | ItemStateChangeTrigger (itemName : String) (fromValue toValue : Option String)
  | ItemCommandTrigger (itemName : String) (toValue : Option String)
  | ItemStateUpdateTrigger (itemName : String) (toValue : Option String)
  | GroupStateChangeTrigger (groupName : String) (fromValue toValue : Option String)
  | GroupCommandTrigger (groupName : String) (toValue : Option String)
  | GroupStateUpdateTrigger (groupName : String) (toValue : Option String)
  | ThingStatusChangeTrigger (thingUID : String) (toValue fromValue : Option String)
  | ThingStatusUpdateTrigger (thingUID : String) (toValue : Option String)
  | SystemStartlevelTrigger (level : Option Nat)
  deriving DecidableEq, Repr

/-- Does the engine record come from the group family of factories?  Used to
state that `_toOHTriggers` selects the group family exactly for `memberOf`
configurations. -/
def EngineTrigger.isGroupFamily : EngineTrigger → Bool
  | .GroupStateChangeTrigger _ _ _ => true
  | .GroupCommandTrigger _ _ => true
  | .GroupStateUpdateTrigger _ _ => true
  | _ => false

/-- The `itemOrName` argument of `ItemTriggerConfig`: either a plain name
string or an object exposing a `name` attribute
(`if (typeof itemOrName !== 'string') itemOrName = itemOrName.name`). -/
inductive ItemOrName where
  | str (s : String)
  | ref (name : String)
  deriving DecidableEq, Repr

/-- The normalization performed by the `ItemTriggerConfig` constructor. -/
def ItemOrName.normalized : ItemOrName → String
  | .str s => s
  | .ref n => n

/-- `ChannelTriggerConfig`: fields set by the constructor and by
`triggered`/`to`. -/
structure ChannelTriggerConfig where
  channelName : String
  eventName : Option String := none
  deriving DecidableEq, Repr

/-- The `ChannelTriggerConfig` constructor: stores the channel name;
`eventName` is not assigned (undefined). -/
def ChannelTriggerConfig.make (channelName : String) : ChannelTriggerConfig :=
  { channelName := channelName }

/-- `triggered(eventName) { this.eventName = eventName || ""; return this; }` -/
def ChannelTriggerConfig.triggered (c : ChannelTriggerConfig) (eventName : Option String) :
    ChannelTriggerConfig :=
  { c with eventName := some (if truthy eventName then jsToString eventName else "") }

/-- `to(eventName)` delegates to `triggered(eventName)`. -/
def ChannelTriggerConfig.to (c : ChannelTriggerConfig) (eventName : Option String) :
    ChannelTriggerConfig :=
  c.triggered eventName

/-- `_complete() { return typeof (this.eventName) !== 'undefined'; }` -/
def ChannelTriggerConfig._complete (c : ChannelTriggerConfig) : Bool :=
  c.eventName.isSome

/-- `CronTriggerConfig`: holds the cron expression. -/
structure CronTriggerConfig where
  timeStr : String
  deriving DecidableEq, Repr

/-- The `CronTriggerConfig` constructor. -/
def CronTriggerConfig.make (timeStr : String) : CronTriggerConfig :=
  { timeStr := timeStr }

/-- `this._complete = () => true` (instance closure set in the constructor). -/
def CronTriggerConfig._complete (_c : CronTriggerConfig) : Bool :=
  true

/-- `this._toOHTriggers = () => [triggers.GenericCronTrigger(this.timeStr)]` -/
def CronTriggerConfig._toOHTriggers (c : CronTriggerConfig) : List EngineTrigger :=
  [.GenericCronTrigger c.timeStr]

/-- `ItemTriggerConfig`: fields assigned by the constructor and by the
refinement methods.  `hasTriggerBuilder` records whether the
`triggerBuilder` back-reference installed by the `TriggerConf` base
constructor is defined (it is `undefined` when the constructor is invoked
with fewer than three arguments, as `timeOfDay` does). -/
structure ItemTriggerConfig where
  type : String
  item_name : String
  op_type : Option String := none
  to_value : Option String := none
  from_value : Option String := none
  hasTriggerBuilder : Bool
  deriving DecidableEq, Repr

/-- The `ItemTriggerConfig` constructor:
`this.type = isGroup ? 'memberOf' : 'item'`, then normalization of
`itemOrName` to a string name.  `isGroup` is the JS truthiness of the
second constructor argument, `hasTriggerBuilder` whether the third argument
is defined. -/
def ItemTriggerConfig.make (itemOrName : ItemOrName) (isGroup : Bool)
    (hasTriggerBuilder : Bool) : ItemTriggerConfig :=
  { type := if isGroup then "memberOf" else "item"
  , item_name := itemOrName.normalized
  , hasTriggerBuilder := hasTriggerBuilder }

/-- `to(value) { this.to_value = value; return this; }` (also aliased as
`of` by the constructor, for `receivedCommand().of(..)`). -/
def ItemTriggerConfig.to (c : ItemTriggerConfig) (value : Option String) : ItemTriggerConfig :=
  { c with to_value := value }

/-- `from(value)`: throws unless the operation kind is `'changed'`,
otherwise sets `from_value` and returns the configuration. -/
def ItemTriggerConfig.«from» (c : ItemTriggerConfig) (value : Option String) :
    Except String ItemTriggerConfig :=
  if c.op_type ≠ some "changed" then
    .error ".from(..) only available for .changed()"
  else
    .ok { c with from_value := value }

/-- `receivedCommand() { this.op_type = 'receivedCommand'; return this; }` -/
def ItemTriggerConfig.receivedCommand (c : ItemTriggerConfig) : ItemTriggerConfig :=
  { c with op_type := some "receivedCommand" }

/-- `receivedUpdate() { this.op_type = 'receivedUpdate'; return this; }` -/
def ItemTriggerConfig.receivedUpdate (c : ItemTriggerConfig) : ItemTriggerConfig :=
  { c with op_type := some "receivedUpdate" }

/-- `changed() { this.op_type = 'changed'; return this; }` -/
def ItemTriggerConfig.changed (c : ItemTriggerConfig) : ItemTriggerConfig :=
  { c with op_type := some "changed" }

/-- `_complete() { return typeof (this.op_type) !== 'undefined'; }` -/
def ItemTriggerConfig._complete (c : ItemTriggerConfig) : Bool :=
  c.op_type.isSome

/-- The `describe` that is actually invoked on an `ItemTriggerConfig`: the
constructor assigns the instance closure
`this.describe = () => \x7b${this.type} ${this.item_name} changed\x7d`
(a template literal), and in JavaScript an own property shadows the
prototype method of the same name, so the elaborate prototype
`describe(compact)` below is unreachable through normal calls.  The closure
takes no parameter; a passed `compact` argument is ignored. -/
def ItemTriggerConfig.describe (c : ItemTriggerConfig) (_compact : Bool) : String :=
  c.type ++ " " ++ c.item_name ++ " changed"

/-- The prototype method `describe(compact)` of `ItemTriggerConfig`
(shadowed by the instance closure above; embedded faithfully, including the
JavaScript operator precedence in
`let transition = this.from_value + '=>' || ''`, where `+` binds tighter
than `||`, so the concatenation happens first and the `|| ''` fallback is
dead because the concatenation always ends in `=>` and is never empty). -/
def ItemTriggerConfig.describeProto (c : ItemTriggerConfig) (compact : Bool) :
    Except String String :=
  if c.op_type = some "changed" then
    if compact then
      let transition := jsOr (jsToString c.from_value ++ "=>") ""
      let transition :=
        if truthy c.to_value then jsOr transition "=>" ++ jsToString c.to_value
        else transition
      .ok (c.item_name ++ " " ++ transition ++ "/Δ")
    else
      let transition := "changed"
      let transition :=
        if truthy c.from_value then transition ++ " from " ++ jsToString c.from_value
        else transition
      let transition :=
        if truthy c.to_value then transition ++ " to " ++ jsToString c.to_value
        else transition
      .ok (c.item_name ++ " " ++ transition)
  else if c.op_type = some "receivedCommand" then
    .ok (if compact then c.item_name ++ "/⌘"
         else c.type ++ " " ++ c.item_name ++ " received command")
  else if c.op_type = some "receivedUpdate" then
    .ok (if compact then c.item_name ++ "/↻"
         else c.type ++ " " ++ c.item_name ++ " received update")
  else
    .error ("Unknown operation type: " ++ jsToString c.op_type)

/-- `_toOHTriggers()`: branches on group-vs-single-item, then on the
operation kind; the `default` branch of the source's `switch` throws (the
source writes `throw error(...)`, and `error` is not in scope, so a
`ReferenceError` is thrown — an exception propagates either way, modelled
as `.error` carrying the intended message). -/
def ItemTriggerConfig._toOHTriggers (c : ItemTriggerConfig) :
    Except String (List EngineTrigger) :=
  if c.type = "memberOf" then
    if c.op_type = some "changed" then
      .ok [.GroupStateChangeTrigger c.item_name c.from_value c.to_value]
    else if c.op_type = some "receivedCommand" then
      .ok [.GroupCommandTrigger c.item_name c.to_value]
    else if c.op_type = some "receivedUpdate" then
      .ok [.GroupStateUpdateTrigger c.item_name c.to_value]
    else
      .error ("Unknown operation type: " ++ jsToString c.op_type)
  else
    if c.op_type = some "changed" then
      .ok [.ItemStateChangeTrigger c.item_name c.from_value c.to_value]
    else if c.op_type = some "receivedCommand" then
      .ok [.ItemCommandTrigger c.item_name c.to_value]
    else if c.op_type = some "receivedUpdate" then
      .ok [.ItemStateUpdateTrigger c.item_name c.to_value]
    else
      .error ("Unknown operation type: " ++ jsToString c.op_type)

/-- `const getReceivedCommand = function (args) \x7b return args.receivedCommand; \x7d` -/
def getReceivedCommand (args : JSObj) : Option String :=
  args "receivedCommand"

/-- The object `\x7b...args, it\x7d` passed to `next` by the `receivedCommand`
middleware: the spread copies every key of `args`, then the shorthand
property sets key `"it"` (overwriting a spread-in `"it"` if present). -/
def spreadWithIt (args : JSObj) (it : Option String) : JSObj :=
  fun k => if k = "it" then it else args k

/-- `_executeHook()`: for operation kind `'receivedCommand'` returns the
middleware `(next, args) => next(\x7b...args, it\x7d)` with
`it = getReceivedCommand(args)`; otherwise returns `null` (`none`).  `R` is
the result type of the downstream `next`. -/
def ItemTriggerConfig._executeHook (c : ItemTriggerConfig) (R : Type) :
    Option ((JSObj → R) → JSObj → R) :=
  if c.op_type = some "receivedCommand" then
    some (fun next args =>
      let it := getReceivedCommand args
      next (spreadWithIt args it))
  else
    none

/-- `ThingTriggerConfig`: fields assigned by the constructor and by the
refinement methods. -/
structure ThingTriggerConfig where
  thingUID : String
  op_type : Option String := none
  to_value : Option String := none
  from_value : Option String := none
  deriving DecidableEq, Repr

/-- The `ThingTriggerConfig` constructor: stores the thing UID. -/
def ThingTriggerConfig.make (thingUID : String) : ThingTriggerConfig :=
  { thingUID := thingUID }

/-- `_complete() { return typeof (this.op_type) !== 'undefined'; }` -/
def ThingTriggerConfig._complete (c : ThingTriggerConfig) : Bool :=
  c.op_type.isSome

/-- `changed() { this.op_type = 'changed'; return this; }` -/
def ThingTriggerConfig.changed (c : ThingTriggerConfig) : ThingTriggerConfig :=
  { c with op_type := some "changed" }

/-- `updated() { this.op_type = 'updated'; return this; }` -/
def ThingTriggerConfig.updated (c : ThingTriggerConfig) : ThingTriggerConfig :=
  { c with op_type := some "updated" }

/-- `from(value)` on a Thing configuration: throws unless the operation
kind is `'changed'`. -/
def ThingTriggerConfig.«from» (c : ThingTriggerConfig) (value : Option String) :
    Except String ThingTriggerConfig :=
  if c.op_type ≠ some "changed" then
    .error ".from(..) only available for .changed()"
  else
    .ok { c with from_value := value }

/-- `to(value) { this.to_value = value; return this; }` -/
def ThingTriggerConfig.to (c : ThingTriggerConfig) (value : Option String) :
    ThingTriggerConfig :=
  { c with to_value := value }

/-- `_toOHTriggers()` of `ThingTriggerConfig` (note the argument order of
the change factory: `(thingUID, to_value, from_value)`); the `default`
branch throws, as in `ItemTriggerConfig._toOHTriggers`. -/
def ThingTriggerConfig._toOHTriggers (c : ThingTriggerConfig) :
    Except String (List EngineTrigger) :=
  if c.op_type = some "changed" then
    .ok [.ThingStatusChangeTrigger c.thingUID c.to_value c.from_value]
  else if c.op_type = some "updated" then
    .ok [.ThingStatusUpdateTrigger c.thingUID c.to_value]
  else
    .error ("Unknown operation type: " ++ jsToString c.op_type)

/-- `SystemTriggerConfig`: the startup level, unset after construction. -/
structure SystemTriggerConfig where
  level : Option Nat := none
  deriving DecidableEq, Repr

/-- The `SystemTriggerConfig` constructor: assigns only the instance
closures; `level` is undefined. -/
def SystemTriggerConfig.make : SystemTriggerConfig :=
  { }

/-- `_complete() { return typeof (this.level) !== 'undefined'; }` -/
def SystemTriggerConfig._complete (c : SystemTriggerConfig) : Bool :=
  c.level.isSome

/-- `this._toOHTriggers = () => [triggers.SystemStartlevelTrigger(this.level)]` -/
def SystemTriggerConfig._toOHTriggers (c : SystemTriggerConfig) : List EngineTrigger :=
  [.SystemStartlevelTrigger c.level]

/-- `startLevel(level) { this.level = level; return this; }` -/
def SystemTriggerConfig.startLevel (c : SystemTriggerConfig) (level : Nat) :
    SystemTriggerConfig :=
  { c with level := some level }

/-- `rulesLoaded() { return this.startLevel(40); }` -/
def SystemTriggerConfig.rulesLoaded (c : SystemTriggerConfig) : SystemTriggerConfig :=
  c.startLevel 40

/-- `ruleEngineStarted() { return this.startLevel(50); }` -/
def SystemTriggerConfig.ruleEngineStarted (c : SystemTriggerConfig) : SystemTriggerConfig :=
  c.startLevel 50

/-- `userInterfacesStarted() { return this.startLevel(70); }` -/
def SystemTriggerConfig.userInterfacesStarted (c : SystemTriggerConfig) : SystemTriggerConfig :=
  c.startLevel 70

/-- `thingsInitialized() { return this.startLevel(80); }` -/
def SystemTriggerConfig.thingsInitialized (c : SystemTriggerConfig) : SystemTriggerConfig :=
  c.startLevel 80

/-- `startupComplete() { return this.startLevel(100); }` -/
def SystemTriggerConfig.startupComplete (c : SystemTriggerConfig) : SystemTriggerConfig :=
  c.startLevel 100

namespace TriggerBuilder

/-- The configuration constructed by `TriggerBuilder.item(s)`:
`new ItemTriggerConfig(s, false, this)` — single item, builder defined. -/
def itemConf (s : ItemOrName) : ItemTriggerConfig :=
  ItemTriggerConfig.make s false true

/-- The configuration constructed by `TriggerBuilder.memberOf(s)`:
`new ItemTriggerConfig(s, true, this)` — group flavour, builder defined. -/
def memberOfConf (s : ItemOrName) : ItemTriggerConfig :=
  ItemTriggerConfig.make s true true

/-- The configuration constructed by `TriggerBuilder.timeOfDay(s)`:
`new ItemTriggerConfig('vTimeOfDay', this).changed().to(s)`.  The
constructor is invoked with only two arguments, so the `TriggerBuilder`
object `this` occupies the `isGroup` parameter (an object, hence truthy)
and the `triggerBuilder` parameter is `undefined`. -/
def timeOfDayConf (period : Option String) : ItemTriggerConfig :=
  ((ItemTriggerConfig.make (.str "vTimeOfDay") true false).changed).to period

end TriggerBuilder

/-- The five configuration flavours a `TriggerBuilder` can hold as its
current trigger. -/
inductive TriggerConf where
  | channel (c : ChannelTriggerConfig)
  | cron (c : CronTriggerConfig)
  | item (c : ItemTriggerConfig)
  | thing (c : ThingTriggerConfig)
  | system (c : SystemTriggerConfig)
  deriving DecidableEq, Repr

/-- Modelled from the spec (§6): the owning rule builder (not under `src/`)
exposes `addTrigger(triggerConf)`, which appends to an ordered collection,
returns nothing and must not reject incomplete configurations. -/
structure RuleBuilderState where
  triggers : List (Option TriggerConf) := []
  deriving DecidableEq, Repr

/-- Modelled from the spec (§6): `addTrigger` appends to the ordered
trigger collection; the argument may be `undefined` (the never-set
`currentTigger` slot), which is appended like any other value. -/
def RuleBuilderState.addTrigger (rb : RuleBuilderState) (t : Option TriggerConf) :
    RuleBuilderState :=
  { rb with triggers := rb.triggers ++ [t] }

/-- Modelled from the spec (§6): `new operations.OperationBuilder(builder, fn)`
is an opaque chain-continuation object parameterized by the action `fn`
(represented by an opaque handle). -/
structure OperationBuilder where
  fn : Nat
  deriving DecidableEq, Repr

/-- Modelled from the spec (§6): `new conditions.ConditionBuilder(builder, fn)`
is an opaque chain-continuation object parameterized by the guard `fn`. -/
structure ConditionBuilder where
  fn : Nat
  deriving DecidableEq, Repr

/-- The state of one rule-definition session: the `TriggerBuilder`'s
`currentTigger` slot (the source's own spelling; `undefined` until the
first starter call) together with the owning rule builder's collection.
In JavaScript the fluent receiver and the slot alias the same object; the
embedding keeps the current configuration in the slot. -/
structure TBState where
  builder : RuleBuilderState := { }
  currentTigger : Option TriggerConf := none
  deriving DecidableEq, Repr

/-- `_setTrigger(trigger) { this.currentTigger = trigger; return this.currentTigger; }` -/
def TBState._setTrigger (st : TBState) (t : TriggerConf) : TBState :=
  { st with currentTigger := some t }

/-- `_or() { this.builder.addTrigger(this.currentTigger); return this; }` —
no guard: a never-set (`undefined`) slot is passed to `addTrigger` as is. -/
def TBState._or (st : TBState) : TBState :=
  { st with builder := st.builder.addTrigger st.currentTigger }

/-- `_then(fn) { this._or(); return new operations.OperationBuilder(this.builder, fn); }` -/
def TBState._then (st : TBState) (fn : Nat) : TBState × OperationBuilder :=
  (st._or, { fn := fn })

/-- `_if(fn) { this._or(); return new conditions.ConditionBuilder(this.builder, fn); }` -/
def TBState._if (st : TBState) (fn : Nat) : TBState × ConditionBuilder :=
  (st._or, { fn := fn })

/-- `channel(s) { return this._setTrigger(new ChannelTriggerConfig(s, this)); }` -/
def TBState.channel (st : TBState) (s : String) : TBState :=
  st._setTrigger (.channel (ChannelTriggerConfig.make s))

/-- `cron(s) { return this._setTrigger(new CronTriggerConfig(s, this)); }` -/
def TBState.cron (st : TBState) (s : String) : TBState :=
  st._setTrigger (.cron (CronTriggerConfig.make s))

/-- Chaining `.triggered(e)` on the current configuration: in JavaScript
the receiver is the very object held in `currentTigger`, so refining it
refines the slot; the call is a `TypeError` (`none`) if the current
configuration is not a channel configuration. -/
def TBState.chanTriggered (st : TBState) (e : Option String) : Option TBState :=
  match st.currentTigger with
  | some (.channel c) => some { st with currentTigger := some (.channel (c.triggered e)) }
  | _ => none

/-- The evaluation of `channel('a').triggered('x').or().cron('0 0 * * * ?')`
on a fresh session: `channel` sets the current trigger, `triggered` refines
it, `.or()` registers it with the rule builder and returns the
`TriggerBuilder`, and `cron` replaces the current trigger. -/
def c4Chain : Option TBState :=
  (((TBState.channel { } "a").chanTriggered (some "x")).map TBState._or).map
    (fun st => st.cron "0 0 * * * ?")

/-- The state `c4Chain` evaluates to. -/
def c4Final : TBState :=
  { builder := { triggers := [some (.channel { channelName := "a", eventName := some "x" })] }
  , currentTigger := some (.cron { timeStr := "0 0 * * * ?" }) }

/-- A fresh `TriggerBuilder` session on which no starter method has been
called: empty collection, `currentTigger` undefined. -/
def freshTB : TBState :=
  { }

/-- A concrete downstream argument bag that already binds the key `"it"`
(to `"A"`) and carries a received command (`"B"`). -/
def c3args : JSObj :=
  fun k => if k = "it" then some "A" else if k = "receivedCommand" then some "B" else none

/-- `item('i').changed()` — a changed-kind item configuration with neither
a from-value nor a to-value. -/
def c2cfg : ItemTriggerConfig :=
  (TriggerBuilder.itemConf (.str "i")).changed

/-- `item('i').receivedCommand()` — a command-kind item configuration. -/
def c3cfgRC : ItemTriggerConfig :=
  (TriggerBuilder.itemConf (.str "i")).receivedCommand

/-- C7: immediately after construction, before any refinement method is
called, `_complete()` returns `false` for `ChannelTriggerConfig`,
`ItemTriggerConfig`, `ThingTriggerConfig` and `SystemTriggerConfig`, and
`true` for `CronTriggerConfig`, for every constructor argument. -/
theorem c7_complete_after_construction (channelName cronExpr thingUID : String)
    (itemOrName : ItemOrName) (isGroup hasTB : Bool) :
    (ChannelTriggerConfig.make channelName)._complete = false
    ∧ (CronTriggerConfig.make cronExpr)._complete = true
    ∧ (ItemTriggerConfig.make itemOrName isGroup hasTB)._complete = false
    ∧ (ThingTriggerConfig.make thingUID)._complete = false
    ∧ SystemTriggerConfig.make._complete = false :=
  ⟨rfl, rfl, rfl, rfl, rfl⟩

/-- C8: on a `SystemTriggerConfig`, `rulesLoaded()` sets startup level 40,
`ruleEngineStarted()` 50, `userInterfacesStarted()` 70,
`thingsInitialized()` 80 and `startupComplete()` 100; each of them, like
`startLevel(n)`, returns the configuration itself with the level set, and
the level set is the one emitted by `_toOHTriggers`. -/
theorem c8_system_levels (s : SystemTriggerConfig) (n : Nat) :
    (s.rulesLoaded = s.startLevel 40 ∧ s.rulesLoaded.level = some 40
      ∧ s.rulesLoaded._toOHTriggers = [.SystemStartlevelTrigger (some 40)])
    ∧ (s.ruleEngineStarted = s.startLevel 50 ∧ s.ruleEngineStarted.level = some 50
      ∧ s.ruleEngineStarted._toOHTriggers = [.SystemStartlevelTrigger (some 50)])
    ∧ (s.userInterfacesStarted = s.startLevel 70 ∧ s.userInterfacesStarted.level = some 70
      ∧ s.userInterfacesStarted._toOHTriggers = [.SystemStartlevelTrigger (some 70)])
    ∧ (s.thingsInitialized = s.startLevel 80 ∧ s.thingsInitialized.level = some 80
      ∧ s.thingsInitialized._toOHTriggers = [.SystemStartlevelTrigger (some 80)])
    ∧ (s.startupComplete = s.startLevel 100 ∧ s.startupComplete.level = some 100
      ∧ s.startupComplete._toOHTriggers = [.SystemStartlevelTrigger (some 100)])
    ∧ s.startLevel n = { s with level := some n }
    ∧ (s.startLevel n)._toOHTriggers = [.SystemStartlevelTrigger (some n)] :=
  ⟨⟨rfl, rfl, rfl⟩, ⟨rfl, rfl, rfl⟩, ⟨rfl, rfl, rfl⟩, ⟨rfl, rfl, rfl⟩,
    ⟨rfl, rfl, rfl⟩, rfl, rfl⟩

/-- C10 (implicit): calling `_or()`, `_then(fn)` or `_if(fn)` on a
`TriggerBuilder` on which no starter method has ever been called does not
raise (the only code it runs is `addTrigger` and the stage constructor,
both total): it passes the undefined `currentTigger` slot to `addTrigger`,
so the rule builder's collection receives an undefined entry, and the
stage object is still constructed from `fn`. -/
theorem c10_terminal_combinators_without_starter (fn : Nat) :
    freshTB._or.builder.triggers = [none]
    ∧ (freshTB._then fn).1.builder.triggers = [none]
    ∧ (freshTB._then fn).2 = { fn := fn }
    ∧ (freshTB._if fn).1.builder.triggers = [none]
    ∧ (freshTB._if fn).2 = { fn := fn } :=
  ⟨rfl, rfl, rfl, rfl, rfl⟩

/-- C5: on both `ItemTriggerConfig` and `ThingTriggerConfig`, `from(v)`
throws whenever the current operation kind is anything other than
`'changed'` (including unset), and when the kind is `'changed'` it sets
the from-value and returns the configuration. -/
theorem c5_from_only_for_changed (c : ItemTriggerConfig) (t : ThingTriggerConfig)
    (v : Option String) :
    (c.op_type ≠ some "changed" →
      c.«from» v = .error ".from(..) only available for .changed()")
    ∧ (c.op_type = some "changed" → c.«from» v = .ok { c with from_value := v })
    ∧ (t.op_type ≠ some "changed" →
      t.«from» v = .error ".from(..) only available for .changed()")
    ∧ (t.op_type = some "changed" → t.«from» v = .ok { t with from_value := v }) := by
  refine ⟨fun h => ?_, fun h => ?_, fun h => ?_, fun h => ?_⟩
  · rw [ItemTriggerConfig.«from», if_pos h]
  · rw [ItemTriggerConfig.«from», if_neg (not_not_intro h)]
  · rw [ThingTriggerConfig.«from», if_pos h]
  · rw [ThingTriggerConfig.«from», if_neg (not_not_intro h)]

/-- Witness for C5: at concrete configurations — an item configuration
with no operation kind set, an item configuration after `changed()`, a
thing configuration after `updated()`, and a thing configuration after
`changed()`. -/
theorem c5_from_only_for_changed_witness :
    (TriggerBuilder.itemConf (.str "i")).«from» (some "X")
        = .error ".from(..) only available for .changed()"
    ∧ (TriggerBuilder.itemConf (.str "i")).changed.«from» (some "X")
        = .ok { (TriggerBuilder.itemConf (.str "i")).changed with from_value := some "X" }
    ∧ (ThingTriggerConfig.make "t:1").updated.«from» (some "X")
        = .error ".from(..) only available for .changed()"
    ∧ (ThingTriggerConfig.make "t:1").changed.«from» (some "X")
        = .ok { (ThingTriggerConfig.make "t:1").changed with from_value := some "X" } :=
  ⟨(c5_from_only_for_changed (TriggerBuilder.itemConf (.str "i"))
      (ThingTriggerConfig.make "t:1") (some "X")).1 (by decide),
   (c5_from_only_for_changed (TriggerBuilder.itemConf (.str "i")).changed
      (ThingTriggerConfig.make "t:1") (some "X")).2.1 rfl,
   (c5_from_only_for_changed (TriggerBuilder.itemConf (.str "i"))
      (ThingTriggerConfig.make "t:1").updated (some "X")).2.2.1 (by decide),
   (c5_from_only_for_changed (TriggerBuilder.itemConf (.str "i"))
      (ThingTriggerConfig.make "t:1").changed (some "X")).2.2.2 rfl⟩

/-- C9: when the internal operation-kind field of an `ItemTriggerConfig`
or a `ThingTriggerConfig` is undefined or holds a value outside the closed
enumeration of recognized kinds, `_toOHTriggers()` raises an error instead
of returning normally. -/
theorem c9_unknown_op_type_errors (c : ItemTriggerConfig) (t : ThingTriggerConfig)
    (hc1 : c.op_type ≠ some "changed") (hc2 : c.op_type ≠ some "receivedCommand")
    (hc3 : c.op_type ≠ some "receivedUpdate")
    (ht1 : t.op_type ≠ some "changed") (ht2 : t.op_type ≠ some "updated") :
    c._toOHTriggers = .error ("Unknown operation type: " ++ jsToString c.op_type)
    ∧ t._toOHTriggers = .error ("Unknown operation type: " ++ jsToString t.op_type) := by
  constructor
  · unfold ItemTriggerConfig._toOHTriggers
    by_cases hm : c.type = "memberOf" <;> simp [hm, hc1, hc2, hc3]
  · unfold ThingTriggerConfig._toOHTriggers
    simp [ht1, ht2]

/-- Witness for C9: a freshly constructed item configuration (operation
kind undefined) and an item configuration whose kind was forced to an
unrecognized value, plus a freshly constructed thing configuration. -/
theorem c9_unknown_op_type_errors_witness :
    (TriggerBuilder.itemConf (.str "i"))._toOHTriggers
      = .error ("Unknown operation type: "
          ++ jsToString (TriggerBuilder.itemConf (.str "i")).op_type)
    ∧ { TriggerBuilder.memberOfConf (.str "g") with op_type := some "bogus" }._toOHTriggers
      = .error ("Unknown operation type: "
          ++ jsToString ({ TriggerBuilder.memberOfConf (.str "g") with
              op_type := some "bogus" } : ItemTriggerConfig).op_type)
    ∧ (ThingTriggerConfig.make "t:1")._toOHTriggers
      = .error ("Unknown operation type: "
          ++ jsToString (ThingTriggerConfig.make "t:1").op_type) :=
  ⟨(c9_unknown_op_type_errors (TriggerBuilder.itemConf (.str "i"))
      (ThingTriggerConfig.make "t:1") (by decide) (by decide) (by decide)
      (by decide) (by decide)).1,
   (c9_unknown_op_type_errors
      { TriggerBuilder.memberOfConf (.str "g") with op_type := some "bogus" }
      (ThingTriggerConfig.make "t:1") (by decide) (by decide) (by decide)
      (by decide) (by decide)).1,
   (c9_unknown_op_type_errors (TriggerBuilder.itemConf (.str "i"))
      (ThingTriggerConfig.make "t:1") (by decide) (by decide) (by decide)
      (by decide) (by decide)).2⟩

/-- C6: `_toOHTriggers` on an `ItemTriggerConfig` selects the group family
of engine constructors exactly when the configuration was created via
`memberOf`, for each of the three operation kinds; in particular
`memberOf(g).receivedUpdate()` emits the group state-update constructor
and `item(g).receivedUpdate()` the single-item state-update constructor. -/
theorem c6_group_vs_item_selection (g : String) :
    ((TriggerBuilder.memberOfConf (.str g)).receivedUpdate)._toOHTriggers
        = .ok [.GroupStateUpdateTrigger g none]
    ∧ ((TriggerBuilder.itemConf (.str g)).receivedUpdate)._toOHTriggers
        = .ok [.ItemStateUpdateTrigger g none]
    ∧ ((TriggerBuilder.memberOfConf (.str g)).changed)._toOHTriggers
        = .ok [.GroupStateChangeTrigger g none none]
    ∧ ((TriggerBuilder.itemConf (.str g)).changed)._toOHTriggers
        = .ok [.ItemStateChangeTrigger g none none]
    ∧ ((TriggerBuilder.memberOfConf (.str g)).receivedCommand)._toOHTriggers
        = .ok [.GroupCommandTrigger g none]
    ∧ ((TriggerBuilder.itemConf (.str g)).receivedCommand)._toOHTriggers
        = .ok [.ItemCommandTrigger g none]
    ∧ ∀ c : ItemTriggerConfig,
        (c.op_type = some "changed" ∨ c.op_type = some "receivedCommand"
          ∨ c.op_type = some "receivedUpdate") →
        ∃ tr : EngineTrigger, c._toOHTriggers = .ok [tr]
          ∧ (tr.isGroupFamily = true ↔ c.type = "memberOf") := by
  refine ⟨rfl, rfl, rfl, rfl, rfl, rfl, ?_⟩
  intro c h
  by_cases hm : c.type = "memberOf"
  · rcases h with h | h | h
    · exact ⟨.GroupStateChangeTrigger c.item_name c.from_value c.to_value,
        by simp [ItemTriggerConfig._toOHTriggers, hm, h],
        by simp [EngineTrigger.isGroupFamily, hm]⟩
    · exact ⟨.GroupCommandTrigger c.item_name c.to_value,
        by simp [ItemTriggerConfig._toOHTriggers, hm, h],
        by simp [EngineTrigger.isGroupFamily, hm]⟩
    · exact ⟨.GroupStateUpdateTrigger c.item_name c.to_value,
        by simp [ItemTriggerConfig._toOHTriggers, hm, h],
        by simp [EngineTrigger.isGroupFamily, hm]⟩
  · rcases h with h | h | h
    · exact ⟨.ItemStateChangeTrigger c.item_name c.from_value c.to_value,
        by simp [ItemTriggerConfig._toOHTriggers, hm, h],
        by simp [EngineTrigger.isGroupFamily, hm]⟩
    · exact ⟨.ItemCommandTrigger c.item_name c.to_value,
        by simp [ItemTriggerConfig._toOHTriggers, hm, h],
        by simp [EngineTrigger.isGroupFamily, hm]⟩
    · exact ⟨.ItemStateUpdateTrigger c.item_name c.to_value,
        by simp [ItemTriggerConfig._toOHTriggers, hm, h],
        by simp [EngineTrigger.isGroupFamily, hm]⟩

/-- Witness for C6: the general clause instantiated at the concrete group
configuration `memberOf('g').receivedUpdate().to('V')`. -/
theorem c6_group_vs_item_selection_witness :
    ∃ tr : EngineTrigger,
      (((TriggerBuilder.memberOfConf (.str "g")).receivedUpdate).to (some "V"))._toOHTriggers
          = .ok [tr]
      ∧ (tr.isGroupFamily = true
          ↔ (((TriggerBuilder.memberOfConf (.str "g")).receivedUpdate).to (some "V")).type
              = "memberOf") :=
  (c6_group_vs_item_selection "g").2.2.2.2.2.2
    (((TriggerBuilder.memberOfConf (.str "g")).receivedUpdate).to (some "V"))
    (Or.inr (Or.inr rfl))

/-- C1 (code evaluation at the failing input `timeOfDay('SUNSET')`): the
constructed configuration has entity name `'vTimeOfDay'`, operation kind
`'changed'` and to-value `'SUNSET'`, but because
`new ItemTriggerConfig('vTimeOfDay', this)` passes the `TriggerBuilder`
(truthy) in the `isGroup` position and leaves `triggerBuilder` undefined,
its `type` is `'memberOf'` and its builder back-reference is missing — so
it is not the single-item configuration `item('vTimeOfDay').changed().to(p)`
the claim describes. -/
theorem c1_timeOfDay_eval :
    (TriggerBuilder.timeOfDayConf (some "SUNSET")).item_name = "vTimeOfDay"
    ∧ (TriggerBuilder.timeOfDayConf (some "SUNSET")).op_type = some "changed"
    ∧ (TriggerBuilder.timeOfDayConf (some "SUNSET")).to_value = some "SUNSET"
    ∧ (TriggerBuilder.timeOfDayConf (some "SUNSET")).type = "memberOf"
    ∧ (TriggerBuilder.timeOfDayConf (some "SUNSET")).hasTriggerBuilder = false
    ∧ ((TriggerBuilder.itemConf (.str "vTimeOfDay")).changed.to (some "SUNSET")).type = "item"
    ∧ ((TriggerBuilder.itemConf (.str "vTimeOfDay")).changed.to
        (some "SUNSET")).hasTriggerBuilder = true
    ∧ TriggerBuilder.timeOfDayConf (some "SUNSET")
        ≠ (TriggerBuilder.itemConf (.str "vTimeOfDay")).changed.to (some "SUNSET") := by
  decide

/-- C2 (code evaluation at the failing input `item('i').changed()` with no
from/to): the instance closure assigned in the constructor shadows the
prototype `describe(compact)`, so `describe(true)` returns
`"item i changed"` — no delta marker, no arrow, the compact flag ignored —
while `describe(false)` does contain the word `"changed"`.  Moreover even
the (unreachable) prototype compact form renders `"i undefined=>/Δ"`,
which contains an arrow although neither a from-value nor a to-value is
set, because `+` binds tighter than `||` in
`this.from_value + '=>' || ''`. -/
theorem c2_describe_eval :
    c2cfg.describe false = "item i changed"
    ∧ strContains (c2cfg.describe false) "changed" = true
    ∧ c2cfg.describe true = "item i changed"
    ∧ strContains (c2cfg.describe true) "Δ" = false
    ∧ strContains (c2cfg.describe true) "=>" = false
    ∧ c2cfg.describeProto true = .ok "i undefined=>/Δ"
    ∧ strContains "i undefined=>/Δ" "=>" = true
    ∧ c2cfg.from_value = none ∧ c2cfg.to_value = none :=
  ⟨rfl, rfl, rfl, rfl, rfl, rfl, rfl, rfl, rfl⟩

/-- Counterexample to C3 as stated: on the argument bag that already binds
`"it"` to `"A"` and carries received command `"B"`, the middleware passes
`next` an object whose `"it"` entry is `"B"` — the pre-existing key `"it"`
does not keep its original value. -/
theorem c3_overwrites_existing_it :
    ((c3cfgRC._executeHook JSObj).map (fun h => h (fun o => o) c3args)).map
        (fun o => o "it") = some (some "B")
    ∧ c3args "it" = some "A"
    ∧ c3args "receivedCommand" = some "B" :=
  ⟨rfl, rfl, rfl⟩

/-- C3 (amended): for operation kind `'receivedCommand'`, `_executeHook()`
returns a middleware that calls `next` with `args` extended with a binding
named `"it"` whose value equals `args.receivedCommand`; every key other
than `"it"` keeps its value from `args`, while an existing `"it"` key is
overwritten by the binding.  For `'changed'` and `'receivedUpdate'`,
`_executeHook()` returns `null`. -/
theorem c3_execute_hook (c : ItemTriggerConfig) (R : Type) (next : JSObj → R)
    (args : JSObj) :
    (c.op_type = some "receivedCommand" →
      ∃ o : JSObj, (c._executeHook R).map (fun h => h next args) = some (next o)
        ∧ o "it" = args "receivedCommand"
        ∧ ∀ k, k ≠ "it" → o k = args k)
    ∧ ((c.op_type = some "changed" ∨ c.op_type = some "receivedUpdate") →
      c._executeHook R = none) := by
  constructor
  · intro h
    refine ⟨spreadWithIt args (args "receivedCommand"), ?_, rfl, fun k hk => ?_⟩
    · simp [ItemTriggerConfig._executeHook, h, getReceivedCommand]
    · simp [spreadWithIt, hk]
  · rintro (h | h) <;> simp [ItemTriggerConfig._executeHook, h]

/-- Witness for C3: the amended statement at the concrete command-kind
configuration and argument bag, and the `null` clause at the concrete
changed-kind configuration. -/
theorem c3_execute_hook_witness :
    (∃ o : JSObj, (c3cfgRC._executeHook JSObj).map (fun h => h (fun o => o) c3args)
        = some o ∧ o "it" = c3args "receivedCommand" ∧ ∀ k, k ≠ "it" → o k = c3args k)
    ∧ c2cfg._executeHook JSObj = none :=
  ⟨(c3_execute_hook c3cfgRC JSObj (fun o => o) c3args).1 rfl,
   (c3_execute_hook c2cfg JSObj (fun o => o) c3args).2 (Or.inl rfl)⟩

/-- Counterexample to C4 as stated: after evaluating
`channel('a').triggered('x').or().cron('0 0 * * * ?')` on a fresh session,
the rule builder's collection has length 1, not 2 — only `.or()`
registered a trigger; the cron configuration is merely the uncommitted
current trigger. -/
theorem c4_single_registration :
    (c4Chain.map fun st => st.builder.triggers.length) = some 1
    ∧ (c4Chain.map fun st => st.builder.triggers.length) ≠ some 2 := by
  decide

/-- C4 (amended): evaluating
`channel('a').triggered('x').or().cron('0 0 * * * ?')` yields a collection
of length 1 holding the channel trigger configuration; the cron
configuration is held as the uncommitted current trigger, and one further
terminal combinator (`or`/`then`/`if`) yields the collection of length 2
with the channel configuration first and the cron configuration second,
in registration order. -/
theorem c4_registration_order :
    c4Chain = some c4Final
    ∧ c4Final.builder.triggers
        = [some (.channel { channelName := "a", eventName := some "x" })]
    ∧ c4Final._or.builder.triggers
        = [some (.channel { channelName := "a", eventName := some "x" }),
           some (.cron { timeStr := "0 0 * * * ?" })] := by
  decide
